import Mathlib

/-!
# Verification of the SEN0186 weather-sentence parser (ProjetoBulgaria)

Shallow embedding of the weather-station firmware consisting of
`src/SN0186-VSCPI-Firmware/src/WeatherParser.h` (the `WeatherData` record and
the `WeatherParser` interface) and `src/SN0186-VSCPI-Firmware/src/main.cpp`
(the serial acquisition loop).

The repository ships only the header declaring `WeatherParser::parse`,
`WeatherParser::extractInt`, `WeatherParser::validateChecksum` and
`WeatherParser::printData`; the implementation file (`WeatherParser.cpp`) is
absent, so those operations are modelled from the specification's step-by-step
description (§4.1, §6, §7 of the design document).  The acquisition loop in
`main.cpp` is embedded directly from the source.

Modelling conventions:
* An Arduino `String` is modelled as a `List Char` (`Line`).
* The C++ `int` raw fields are modelled as `Int`; all parsed field values are
  small non-negative decimal values, far from any overflow boundary.
* The C++ `float` derived fields are modelled as exact rationals `ℚ`; the
  conversion constants (0.44704, 0.01, 25.4, 0.1, 0.0295301) become the exact
  rationals they denote, so the spec's float-tolerance statements become exact
  equalities here.
* Out-of-bounds character access is made observable by a second, checked
  parser `parseChecked` in which every character read goes through an
  `Option`; `parseChecked l = some (parse l)` expresses that the parser
  never reads outside the line.
-/

/-- One serial line; models the Arduino `String` passed to the parser. -/
abbrev Line := List Char

/-- Character at position `i`; out-of-range reads yield the NUL character,
as Arduino `String::charAt` does. -/
def charAtD (l : Line) (i : Nat) : Char := l.getD i (Char.ofNat 0)

/-- Checked character access: `none` exactly when `i` is out of bounds. -/
def charAt? (l : Line) (i : Nat) : Option Char := l.get? i

/-- Decimal value of a digit string (most significant digit first). -/
def digitsVal (sub : List Char) : Int :=
  Int.ofNat (sub.foldl (fun acc c => acc * 10 + (c.toNat - ('0').toNat)) 0)

/-- Modelled from the spec: `WeatherParser::extractInt(data, start, length)`
(implementation file absent from the repository).  Returns the integer value
of the decimal digits at the fixed offset/width; returns 0 when the substring
is out of bounds or non-numeric (§4.1 extractInt contract). -/
def extractInt (data : Line) (start len : Nat) : Int :=
  let sub := (data.drop start).take len
  if sub.length == len && sub.all Char.isDigit then digitsVal sub else 0

/-- The record produced per line: raw integer fields, derived float fields
(modelled as `ℚ`), and status flags, mirroring `struct WeatherData` in
`WeatherParser.h`. -/
structure WeatherData where
  windDirection : Int
  windSpeedAvg : Int
  windGust : Int
  temperature : Int
  rainfall1h : Int
  rainfall24h : Int
  humidity : Int
  pressure : Int
  tempF : ℚ
  tempC : ℚ
  windSpeedMPH : ℚ
  windSpeedMS : ℚ
  windGustMPH : ℚ
  windGustMS : ℚ
  rainfallInch1h : ℚ
  rainfallMM1h : ℚ
  rainfallInch24h : ℚ
  rainfallMM24h : ℚ
  humidityPercent : ℚ
  pressureMbar : ℚ
  pressureInHg : ℚ
  isValid : Bool
  rainfallValid : Bool
  checksum : Line

/-- The default/zero record returned for structurally broken lines
(spec §3: "raw/derived fields take default/zero values"); flags are
zero-initialised, the checksum token is empty. -/
def defaultReading : WeatherData :=
  { windDirection := 0, windSpeedAvg := 0, windGust := 0, temperature := 0
    rainfall1h := 0, rainfall24h := 0, humidity := 0, pressure := 0
    tempF := 0, tempC := 0, windSpeedMPH := 0, windSpeedMS := 0
    windGustMPH := 0, windGustMS := 0
    rainfallInch1h := 0, rainfallMM1h := 0
    rainfallInch24h := 0, rainfallMM24h := 0
    humidityPercent := 0, pressureMbar := 0, pressureInHg := 0
    isValid := false, rainfallValid := false, checksum := [] }

/-- Tag layout table from §6: each tag character and its fixed 0-indexed
position in the sentence `c...s...g...t...r...p...h..b.....*cc`. -/
def tagTable : List (Nat × Char) :=
  [(0, 'c'), (4, 's'), (8, 'g'), (12, 't'), (16, 'r'),
   (20, 'p'), (24, 'h'), (27, 'b'), (33, '*')]

/-- Structural check (spec §4.1 step 6): every tag character sits at its
expected offset. -/
def tagsOk (data : Line) : Bool :=
  tagTable.all (fun p => charAtD data p.1 == p.2)

/-- Minimum sentence length: all fixed-position fields through the
two checksum characters at offsets 34–35 (§6 offset table) — 36 characters. -/
def minLength : Nat := 36

/-- Rain-sensor malfunction sentinel (§6): raw value 453 in either
rainfall field. -/
def rainSentinel : Int := 453

/-- Modelled from the spec: `WeatherParser::parse` (implementation file absent
from the repository), following §4.1 steps 1–7.  Lines shorter than
`minLength` are rejected with the default record; otherwise all fixed-offset
fields are extracted best-effort, the 453 rainfall sentinel zeroes the
affected field and clears `rainfallValid`, derived units are computed from
the (sentinel-adjusted) raw values, the two checksum characters are captured
verbatim, and `isValid` records whether the tag layout was intact. -/
def parse (data : Line) : WeatherData :=
  if data.length < minLength then defaultReading
  else
    let windDirection := extractInt data 1 3
    let windSpeedAvg := extractInt data 5 3
    let windGust := extractInt data 9 3
    let temperature := extractInt data 13 3
    let rain1hRaw := extractInt data 17 3
    let rain24hRaw := extractInt data 21 3
    let humidity := extractInt data 25 2
    let pressure := extractInt data 28 5
    let rainfall1h := if rain1hRaw == rainSentinel then 0 else rain1hRaw
    let rainfall24h := if rain24hRaw == rainSentinel then 0 else rain24hRaw
    let rainfallValid := !(rain1hRaw == rainSentinel || rain24hRaw == rainSentinel)
    { windDirection, windSpeedAvg, windGust, temperature
      rainfall1h, rainfall24h, humidity, pressure
      tempF := (temperature : ℚ)
      tempC := ((temperature : ℚ) - 32) * 5 / 9
      windSpeedMPH := (windSpeedAvg : ℚ)
      windSpeedMS := (windSpeedAvg : ℚ) * (44704 / 100000 : ℚ)
      windGustMPH := (windGust : ℚ)
      windGustMS := (windGust : ℚ) * (44704 / 100000 : ℚ)
      rainfallInch1h := (rainfall1h : ℚ) * (1 / 100 : ℚ)
      rainfallMM1h := (rainfall1h : ℚ) * (1 / 100 : ℚ) * (254 / 10 : ℚ)
      rainfallInch24h := (rainfall24h : ℚ) * (1 / 100 : ℚ)
      rainfallMM24h := (rainfall24h : ℚ) * (1 / 100 : ℚ) * (254 / 10 : ℚ)
      humidityPercent := (humidity : ℚ)
      pressureMbar := (pressure : ℚ) * (1 / 10 : ℚ)
      pressureInHg := (pressure : ℚ) * (1 / 10 : ℚ) * (295301 / 10000000 : ℚ)
      isValid := tagsOk data
      rainfallValid := rainfallValid
      checksum := [charAtD data 34, charAtD data 35] }

/-! ## Checked parser: every character access through `Option` -/

/-- Checked fixed-width field read: `none` as soon as any character position
is out of bounds. -/
def readField? (data : Line) (start : Nat) : Nat → Option (List Char)
  | 0 => some []
  | n + 1 => do
      let c ← charAt? data start
      let rest ← readField? data (start + 1) n
      pure (c :: rest)

/-- Checked version of `extractInt`: out-of-bounds access is `none` instead of
being silently clamped. -/
def extractInt? (data : Line) (start len : Nat) : Option Int := do
  let sub ← readField? data start len
  pure (if sub.all Char.isDigit then digitsVal sub else 0)

/-- Checked version of `tagsOk`. -/
def tagsOk? (data : Line) : Option Bool :=
  tagTable.foldr
    (fun p acc => (charAt? data p.1).bind (fun c => acc.map (fun b => (c == p.2) && b)))
    (some true)

/-- Checked version of `parse`: identical control flow, but every character
read can fail; used to express absence of out-of-bounds access. -/
def parseChecked (data : Line) : Option WeatherData :=
  if data.length < minLength then some defaultReading
  else do
    let windDirection ← extractInt? data 1 3
    let windSpeedAvg ← extractInt? data 5 3
    let windGust ← extractInt? data 9 3
    let temperature ← extractInt? data 13 3
    let rain1hRaw ← extractInt? data 17 3
    let rain24hRaw ← extractInt? data 21 3
    let humidity ← extractInt? data 25 2
    let pressure ← extractInt? data 28 5
    let tOk ← tagsOk? data
    let c1 ← charAt? data 34
    let c2 ← charAt? data 35
    let rainfall1h := if rain1hRaw == rainSentinel then 0 else rain1hRaw
    let rainfall24h := if rain24hRaw == rainSentinel then 0 else rain24hRaw
    let rainfallValid := !(rain1hRaw == rainSentinel || rain24hRaw == rainSentinel)
    pure
      { windDirection, windSpeedAvg, windGust, temperature
        rainfall1h, rainfall24h, humidity, pressure
        tempF := (temperature : ℚ)
        tempC := ((temperature : ℚ) - 32) * 5 / 9
        windSpeedMPH := (windSpeedAvg : ℚ)
        windSpeedMS := (windSpeedAvg : ℚ) * (44704 / 100000 : ℚ)
        windGustMPH := (windGust : ℚ)
        windGustMS := (windGust : ℚ) * (44704 / 100000 : ℚ)
        rainfallInch1h := (rainfall1h : ℚ) * (1 / 100 : ℚ)
        rainfallMM1h := (rainfall1h : ℚ) * (1 / 100 : ℚ) * (254 / 10 : ℚ)
        rainfallInch24h := (rainfall24h : ℚ) * (1 / 100 : ℚ)
        rainfallMM24h := (rainfall24h : ℚ) * (1 / 100 : ℚ) * (254 / 10 : ℚ)
        humidityPercent := (humidity : ℚ)
        pressureMbar := (pressure : ℚ) * (1 / 10 : ℚ)
        pressureInHg := (pressure : ℚ) * (1 / 10 : ℚ) * (295301 / 10000000 : ℚ)
        isValid := tOk
        rainfallValid := rainfallValid
        checksum := [c1, c2] }

/-- The spec's §8 example sentence 1 (both rainfall fields carry the 453
sensor-fault sentinel). -/
def exSentinelLine : Line := "c000s000g000t075r453p453h45b09830*3A".toList

/-- The spec's §8 example sentence 2 (all sensors healthy). -/
def exNormalLine : Line := "c180s010g015t086r005p123h53b10020*3E".toList


/-! ## Bridging the checked and the total parser -/

theorem charAt?_eq (l : Line) (i : Nat) (h : i < l.length) :
    charAt? l i = some (charAtD l i) := by
  simp [charAt?, charAtD, List.getD_eq_getElem _ _ h, List.get?_eq_getElem?,
    List.getElem?_eq_getElem h]

theorem readField?_eq (data : Line) :
    ∀ (len start : Nat), start + len ≤ data.length →
      readField? data start len = some ((data.drop start).take len) := by
  intro len
  induction len with
  | zero => intro start h; simp [readField?]
  | succ n ih =>
      intro start h
      have hs : start < data.length := by omega
      rw [readField?, charAt?_eq data start hs, ih (start + 1) (by omega)]
      show some (charAtD data start :: (data.drop (start + 1)).take n)
          = some ((data.drop start).take (n + 1))
      rw [List.drop_eq_getElem_cons hs, List.take_succ_cons]
      simp only [charAtD, List.getD_eq_getElem _ _ hs]

theorem extractInt?_eq (data : Line) (start len : Nat)
    (h : start + len ≤ data.length) :
    extractInt? data start len = some (extractInt data start len) := by
  rw [extractInt?, readField?_eq data len start h]
  have hlen : ((data.drop start).take len).length = len := by
    simp only [List.length_take, List.length_drop]
    omega
  simp [extractInt, hlen]

theorem tagsOk?_eq (data : Line) (h : minLength ≤ data.length) :
    tagsOk? data = some (tagsOk data) := by
  have h36 : 36 ≤ data.length := h
  rw [tagsOk?, tagsOk, tagTable]
  simp only [List.foldr_cons, List.foldr_nil, List.all_cons, List.all_nil]
  rw [charAt?_eq data 0 (by omega), charAt?_eq data 4 (by omega),
    charAt?_eq data 8 (by omega), charAt?_eq data 12 (by omega),
    charAt?_eq data 16 (by omega), charAt?_eq data 20 (by omega),
    charAt?_eq data 24 (by omega), charAt?_eq data 27 (by omega),
    charAt?_eq data 33 (by omega)]
  simp

theorem parseChecked_eq (data : Line) :
    parseChecked data = some (parse data) := by
  rw [parseChecked, parse]
  by_cases h : data.length < minLength
  · rw [if_pos h, if_pos h]
  · rw [if_neg h, if_neg h]
    have h36 : 36 ≤ data.length := Nat.le_of_not_lt h
    rw [extractInt?_eq data 1 3 (by omega), extractInt?_eq data 5 3 (by omega),
      extractInt?_eq data 9 3 (by omega), extractInt?_eq data 13 3 (by omega),
      extractInt?_eq data 17 3 (by omega), extractInt?_eq data 21 3 (by omega),
      extractInt?_eq data 25 2 (by omega), extractInt?_eq data 28 5 (by omega),
      tagsOk?_eq data h36, charAt?_eq data 34 (by omega),
      charAt?_eq data 35 (by omega)]
    rfl

/-! ## Reporter and acquisition loop -/

/-- Modelled from the spec: `WeatherParser::printData` (implementation file
absent from the repository; spec §4.2 Reporter).  The C++ signature takes the
record by non-const reference, so the model returns the final state of the
referenced record alongside the rendered report lines; per the spec the
record is rendered ("raw values, converted values, status flags") and not
mutated. -/
def printData (weather : WeatherData) : WeatherData × List String :=
  ({ windDirection := weather.windDirection
     windSpeedAvg := weather.windSpeedAvg
     windGust := weather.windGust
     temperature := weather.temperature
     rainfall1h := weather.rainfall1h
     rainfall24h := weather.rainfall24h
     humidity := weather.humidity
     pressure := weather.pressure
     tempF := weather.tempF
     tempC := weather.tempC
     windSpeedMPH := weather.windSpeedMPH
     windSpeedMS := weather.windSpeedMS
     windGustMPH := weather.windGustMPH
     windGustMS := weather.windGustMS
     rainfallInch1h := weather.rainfallInch1h
     rainfallMM1h := weather.rainfallMM1h
     rainfallInch24h := weather.rainfallInch24h
     rainfallMM24h := weather.rainfallMM24h
     humidityPercent := weather.humidityPercent
     pressureMbar := weather.pressureMbar
     pressureInHg := weather.pressureInHg
     isValid := weather.isValid
     rainfallValid := weather.rainfallValid
     checksum := weather.checksum },
   ["Wind direction: " ++ toString weather.windDirection,
    "Wind speed avg (mph): " ++ toString weather.windSpeedMPH,
    "Wind gust (mph): " ++ toString weather.windGustMPH,
    "Temperature (F): " ++ toString weather.tempF,
    "Temperature (C): " ++ toString weather.tempC,
    "Rainfall 1h (in): " ++ toString weather.rainfallInch1h,
    "Rainfall 24h (in): " ++ toString weather.rainfallInch24h,
    "Humidity: " ++ toString weather.humidityPercent,
    "Pressure (mbar): " ++ toString weather.pressureMbar,
    "Data valid: " ++ toString weather.isValid,
    "Rain sensor ok: " ++ toString weather.rainfallValid])

/-- The C `isspace` character class removed by Arduino `String::trim`
(`data.trim()` in `main.cpp` line 50). -/
def isSerialSpace (c : Char) : Bool :=
  c == ' ' || c == '\t' || c == '\n' || c == Char.ofNat 11 ||
    c == Char.ofNat 12 || c == '\r'

/-- Arduino `String::trim`: strip leading and trailing whitespace. -/
def trimLine (l : Line) : Line :=
  ((l.dropWhile isSerialSpace).reverse.dropWhile isSerialSpace).reverse

/-- Observable action of one pass through `loop()` in `main.cpp`:
the `[RAW]` echo, a call to `WeatherParser::parse`, or a call to
`WeatherParser::printData`. -/
inductive LoopEvent where
  | rawEcho (line : Line)
  | parsed (line : Line)
  | printed (w : WeatherData)

/-- `true` exactly on `parse` invocations. -/
def LoopEvent.isParseCall : LoopEvent → Bool
  | parsed _ => true
  | _ => false

/-- `true` exactly on `printData` invocations. -/
def LoopEvent.isPrintCall : LoopEvent → Bool
  | printed _ => true
  | _ => false

/-- One iteration of `loop()` (`main.cpp` lines 47–62): when the serial port
has a line available it is trimmed; a non-empty trimmed line is echoed,
parsed once and printed once; an empty trimmed line does nothing.  The
iteration body holds no state of its own. -/
def loopIter (incoming : Option Line) : List LoopEvent :=
  match incoming with
  | none => []
  | some data =>
      let d := trimLine data
      if 0 < d.length then
        [LoopEvent.rawEcho d, LoopEvent.parsed d, LoopEvent.printed (parse d)]
      else []

/-- The acquisition loop over a schedule of serial reads: iterations are
concatenated, and no `WeatherData` is carried from one to the next. -/
def runLoop (incoming : List (Option Line)) : List LoopEvent :=
  incoming.flatMap loopIter

/-! ## Claim theorems -/

/-- **C6.** For every input line — empty string and arbitrary corrupted text
included — `parse` terminates normally with a fully populated record: the
checked parser, in which every single character access may fail, always
succeeds and returns exactly `parse data`, so every failure mode is encoded
in the record's flags and nothing escapes the parse boundary. -/
theorem parse_total_never_fails (data : Line) :
    parseChecked data = some (parse data) :=
  parseChecked_eq data

/-- **C2.** Any line shorter than the 36-character minimum yields the
default record: `isValid = false`, every raw and derived field zero, empty
checksum; the record is still returned, and the checked parser agrees, so no
out-of-bounds access occurs. -/
theorem parse_short_line_defaults (data : Line) (h : data.length < 36) :
    parse data = defaultReading ∧ (parse data).isValid = false ∧
      (parse data).windDirection = 0 ∧ (parse data).temperature = 0 ∧
      (parse data).tempC = 0 ∧ (parse data).checksum = [] ∧
      parseChecked data = some (parse data) := by
  have hd : parse data = defaultReading := by
    rw [parse, if_pos (show data.length < minLength from h)]
  refine ⟨hd, ?_, ?_, ?_, ?_, ?_, parseChecked_eq data⟩ <;> rw [hd] <;> rfl

/-- Closed witness for **C2** at the empty line. -/
theorem parse_short_line_defaults_witness :
    parse [] = defaultReading ∧ (parse []).isValid = false ∧
      (parse []).windDirection = 0 ∧ (parse []).temperature = 0 ∧
      (parse []).tempC = 0 ∧ (parse []).checksum = [] ∧
      parseChecked [] = some (parse []) :=
  parse_short_line_defaults [] (by decide)

/-- **C3.** `isValid` is `true` exactly when the line reaches the minimum
length and every tag character sits at its fixed offset
(0 `c`, 4 `s`, 8 `g`, 12 `t`, 16 `r`, 20 `p`, 24 `h`, 27 `b`, 33 `*`). -/
theorem parse_isValid_iff_structure (data : Line) :
    (parse data).isValid = true ↔
      (36 ≤ data.length ∧ charAtD data 0 = 'c' ∧ charAtD data 4 = 's' ∧
       charAtD data 8 = 'g' ∧ charAtD data 12 = 't' ∧ charAtD data 16 = 'r' ∧
       charAtD data 20 = 'p' ∧ charAtD data 24 = 'h' ∧ charAtD data 27 = 'b' ∧
       charAtD data 33 = '*') := by
  rw [parse]
  by_cases h : data.length < minLength
  · rw [if_pos h]
    simp only [minLength] at h
    constructor
    · intro hf; exact absurd hf (by decide)
    · rintro ⟨h36, -⟩; omega
  · rw [if_neg h]
    simp only [minLength, not_lt] at h
    show tagsOk data = true ↔ _
    rw [tagsOk, tagTable]
    simp [h]

/-- **C1.** Whenever the rain-1h field (offset 17, width 3) decodes to the
453 sentinel, the returned record has `rainfallValid = false` and the 1-hour
rainfall raw and derived values are zero, not the sentinel; the rain-24h
field (offset 21, width 3) behaves the same independently; and the sentinel
does not disturb `isValid`: the structurally valid example sentence still
parses with `isValid = true` while `rainfallValid = false`. -/
theorem parse_rain_sentinel (data : Line) :
    (extractInt data 17 3 = 453 →
      (parse data).rainfallValid = false ∧ (parse data).rainfall1h = 0 ∧
      (parse data).rainfallInch1h = 0 ∧ (parse data).rainfallMM1h = 0) ∧
    (extractInt data 21 3 = 453 →
      (parse data).rainfallValid = false ∧ (parse data).rainfall24h = 0 ∧
      (parse data).rainfallInch24h = 0 ∧ (parse data).rainfallMM24h = 0) ∧
    ((parse exSentinelLine).isValid = true ∧
     (parse exSentinelLine).rainfallValid = false) := by
  refine ⟨?_, ?_, by decide⟩ <;> intro h453 <;> by_cases h : data.length < minLength
  · rw [parse, if_pos h]; exact ⟨rfl, rfl, rfl, rfl⟩
  · rw [parse, if_neg h]; simp [h453, rainSentinel]
  · rw [parse, if_pos h]; exact ⟨rfl, rfl, rfl, rfl⟩
  · rw [parse, if_neg h]; simp [h453, rainSentinel]

/-- Closed witness for **C1**: the example sentence carries the sentinel in
both rainfall fields, and both hypotheses are discharged there. -/
theorem parse_rain_sentinel_witness :
    (parse exSentinelLine).rainfallValid = false ∧
    (parse exSentinelLine).rainfall1h = 0 ∧
    (parse exSentinelLine).rainfall24h = 0 := by
  have h := parse_rain_sentinel exSentinelLine
  exact ⟨(h.1 (by decide)).1, (h.1 (by decide)).2.1, (h.2.1 (by decide)).2.1⟩

/-- **C5.** On the exact input `c000s000g000t075r453p453h45b09830*3A` the
parser reports calm wind, 75 °F (≈23.89 °C), a rain-sensor fault with both
rainfall values zeroed, 45 % humidity, 983.0 mbar, and a structurally valid
sentence. -/
theorem parse_example_sentinel_line :
    (parse exSentinelLine).windDirection = 0 ∧
    (parse exSentinelLine).windSpeedAvg = 0 ∧
    (parse exSentinelLine).windGust = 0 ∧
    (parse exSentinelLine).tempF = 75 ∧
    |(parse exSentinelLine).tempC - 2389 / 100| < 1 / 100 ∧
    (parse exSentinelLine).rainfallValid = false ∧
    (parse exSentinelLine).rainfall1h = 0 ∧
    (parse exSentinelLine).rainfallInch1h = 0 ∧
    (parse exSentinelLine).rainfallMM1h = 0 ∧
    (parse exSentinelLine).rainfall24h = 0 ∧
    (parse exSentinelLine).rainfallInch24h = 0 ∧
    (parse exSentinelLine).rainfallMM24h = 0 ∧
    (parse exSentinelLine).humidity = 45 ∧
    (parse exSentinelLine).pressureMbar = 983 ∧
    (parse exSentinelLine).isValid = true := by
  have hlen : ¬ exSentinelLine.length < minLength := by decide
  have h1 : extractInt exSentinelLine 1 3 = 0 := by decide
  have h5 : extractInt exSentinelLine 5 3 = 0 := by decide
  have h9 : extractInt exSentinelLine 9 3 = 0 := by decide
  have h13 : extractInt exSentinelLine 13 3 = 75 := by decide
  have h17 : extractInt exSentinelLine 17 3 = 453 := by decide
  have h21 : extractInt exSentinelLine 21 3 = 453 := by decide
  have h25 : extractInt exSentinelLine 25 2 = 45 := by decide
  have h28 : extractInt exSentinelLine 28 5 = 9830 := by decide
  have htag : tagsOk exSentinelLine = true := by decide
  rw [parse, if_neg hlen]
  simp only [h1, h5, h9, h13, h17, h21, h25, h28, htag, rainSentinel]
  norm_num [abs_sub_lt_iff]
  rw [abs_of_pos (by norm_num : (0 : ℚ) < 1 / 900)]
  norm_num

/-- **C4.** On any record parsed with `isValid = true`, each derived field
is the fixed conversion of its raw field: the equalities hold exactly in the
rational model, hence within any 1e-4 floating-point tolerance. -/
theorem parse_derived_conversions (data : Line)
    (h : (parse data).isValid = true) :
    (parse data).tempF = ((parse data).temperature : ℚ) ∧
    (parse data).tempC = ((parse data).tempF - 32) * 5 / 9 ∧
    (parse data).windSpeedMPH = ((parse data).windSpeedAvg : ℚ) ∧
    (parse data).windSpeedMS = (parse data).windSpeedMPH * (44704 / 100000) ∧
    (parse data).windGustMPH = ((parse data).windGust : ℚ) ∧
    (parse data).windGustMS = (parse data).windGustMPH * (44704 / 100000) ∧
    (parse data).rainfallInch1h = ((parse data).rainfall1h : ℚ) * (1 / 100) ∧
    (parse data).rainfallMM1h = (parse data).rainfallInch1h * (254 / 10) ∧
    (parse data).rainfallInch24h = ((parse data).rainfall24h : ℚ) * (1 / 100) ∧
    (parse data).rainfallMM24h = (parse data).rainfallInch24h * (254 / 10) ∧
    (parse data).humidityPercent = ((parse data).humidity : ℚ) ∧
    (parse data).pressureMbar = ((parse data).pressure : ℚ) * (1 / 10) ∧
    (parse data).pressureInHg = (parse data).pressureMbar * (295301 / 10000000) := by
  by_cases hl : data.length < minLength
  · rw [parse, if_pos hl] at h; exact absurd h (by decide)
  · rw [parse, if_neg hl]
    exact ⟨rfl, rfl, rfl, rfl, rfl, rfl, rfl, rfl, rfl, rfl, rfl, rfl, rfl⟩

/-- Closed witness for **C4** at the healthy example sentence. -/
theorem parse_derived_conversions_witness :
    (parse exNormalLine).tempC = ((parse exNormalLine).tempF - 32) * 5 / 9 ∧
    (parse exNormalLine).windSpeedMS
      = (parse exNormalLine).windSpeedMPH * (44704 / 100000) ∧
    (parse exNormalLine).pressureInHg
      = (parse exNormalLine).pressureMbar * (295301 / 10000000) :=
  ⟨(parse_derived_conversions exNormalLine (by decide)).2.1,
   (parse_derived_conversions exNormalLine (by decide)).2.2.2.1,
   (parse_derived_conversions exNormalLine (by decide)).2.2.2.2.2.2.2.2.2.2.2.2⟩

/-- **C8.** `parse` is a pure, stateless function of its argument: two calls
on equal lines return records equal in every field, and repeating a call
returns the same record again — there is no hidden state and no effect. -/
theorem parse_deterministic (s t : Line) (h : s = t) :
    parse s = parse t ∧ parse s = parse s :=
  ⟨by rw [h], rfl⟩

/-- Closed witness for **C8**: the same sentence twice. -/
theorem parse_deterministic_witness :
    parse exNormalLine = parse exNormalLine ∧
      parse exNormalLine = parse exNormalLine :=
  parse_deterministic exNormalLine exNormalLine rfl

/-- **C9.** The reporter does not mutate the record it receives: the state
of the referenced record after `printData` equals the record passed in, in
every raw, derived and status field. -/
theorem printData_preserves_reading (w : WeatherData) :
    (printData w).1 = w := rfl

/-! ## Checksum noninterference helpers -/

theorem take34_length (data : Line) (h : 36 ≤ data.length) :
    (data.take 34).length = 34 := by
  simp only [List.length_take]
  omega

theorem replaceChecksum_length (data : Line) (a b : Char) (h : 36 ≤ data.length) :
    (data.take 34 ++ [a, b]).length = 36 := by
  simp only [List.length_append, List.length_take, List.length_cons,
    List.length_nil]
  omega

theorem charAtD_replaceChecksum (data : Line) (a b : Char) (h : 36 ≤ data.length)
    (i : Nat) (hi : i < 34) :
    charAtD (data.take 34 ++ [a, b]) i = charAtD data i := by
  have h34 : (data.take 34).length = 34 := take34_length data h
  have hi' : i < (data.take 34).length := by omega
  have hL : i < (data.take 34 ++ [a, b]).length := by
    rw [replaceChecksum_length data a b h]; omega
  rw [charAtD, charAtD, List.getD_eq_getElem _ _ hL,
    List.getD_eq_getElem _ _ (by omega : i < data.length),
    List.getElem_append_left hi']
  simp

theorem extractInt_replaceChecksum (data : Line) (a b : Char)
    (h : 36 ≤ data.length) (s w : Nat) (hw : s + w ≤ 34) :
    extractInt (data.take 34 ++ [a, b]) s w = extractInt data s w := by
  have h34 : (data.take 34).length = 34 := take34_length data h
  have hdrop : (data.take 34 ++ [a, b]).drop s = (data.take 34).drop s ++ [a, b] :=
    List.drop_append_of_le_length (by omega)
  have hlen : w ≤ ((data.take 34).drop s).length := by
    simp only [List.length_drop, h34]; omega
  have htake : ((data.take 34 ++ [a, b]).drop s).take w
      = ((data.take 34).drop s).take w := by
    rw [hdrop, List.take_append_of_le_length hlen]
  have hsub : ((data.take 34).drop s).take w = (data.drop s).take w := by
    rw [List.drop_take, List.take_take]
    congr 1
    omega
  simp only [extractInt, htake, hsub]

theorem tagsOk_replaceChecksum (data : Line) (a b : Char)
    (h : 36 ≤ data.length) :
    tagsOk (data.take 34 ++ [a, b]) = tagsOk data := by
  rw [tagsOk, tagsOk, tagTable]
  simp only [List.all_cons, List.all_nil]
  rw [charAtD_replaceChecksum data a b h 0 (by omega),
    charAtD_replaceChecksum data a b h 4 (by omega),
    charAtD_replaceChecksum data a b h 8 (by omega),
    charAtD_replaceChecksum data a b h 12 (by omega),
    charAtD_replaceChecksum data a b h 16 (by omega),
    charAtD_replaceChecksum data a b h 20 (by omega),
    charAtD_replaceChecksum data a b h 24 (by omega),
    charAtD_replaceChecksum data a b h 27 (by omega),
    charAtD_replaceChecksum data a b h 33 (by omega)]

theorem charAtD_replaceChecksum_34 (data : Line) (a b : Char)
    (h : 36 ≤ data.length) :
    charAtD (data.take 34 ++ [a, b]) 34 = a := by
  have h34 : (data.take 34).length = 34 := take34_length data h
  have hL : 34 < (data.take 34 ++ [a, b]).length := by
    rw [replaceChecksum_length data a b h]; omega
  rw [charAtD, List.getD_eq_getElem _ _ hL,
    List.getElem_append_right (by omega : (data.take 34).length ≤ 34)]
  simp [h34]

theorem charAtD_replaceChecksum_35 (data : Line) (a b : Char)
    (h : 36 ≤ data.length) :
    charAtD (data.take 34 ++ [a, b]) 35 = b := by
  have h34 : (data.take 34).length = 34 := take34_length data h
  have hL : 35 < (data.take 34 ++ [a, b]).length := by
    rw [replaceChecksum_length data a b h]; omega
  rw [charAtD, List.getD_eq_getElem _ _ hL,
    List.getElem_append_right (by omega : (data.take 34).length ≤ 35)]
  simp [h34]

/-- **C7.** On a line long enough to carry the `*` delimiter at offset 33
and its two-character token, the characters at offsets 34–35 are stored
verbatim in `checksum`, and replacing those two characters changes nothing
but the stored token: every raw field, every derived field and both status
flags are unchanged — the checksum is never arithmetically validated and
never causes a line to be rejected. -/
theorem parse_checksum_captured (data : Line) (h : 36 ≤ data.length)
    (_hstar : charAtD data 33 = '*') :
    (parse data).checksum = [charAtD data 34, charAtD data 35] ∧
    ∀ a b : Char,
      (parse (data.take 34 ++ [a, b])).checksum = [a, b] ∧
      (parse (data.take 34 ++ [a, b])).isValid = (parse data).isValid ∧
      (parse (data.take 34 ++ [a, b])).rainfallValid
        = (parse data).rainfallValid ∧
      (parse (data.take 34 ++ [a, b])).windDirection
        = (parse data).windDirection ∧
      (parse (data.take 34 ++ [a, b])).windSpeedAvg
        = (parse data).windSpeedAvg ∧
      (parse (data.take 34 ++ [a, b])).windGust = (parse data).windGust ∧
      (parse (data.take 34 ++ [a, b])).temperature
        = (parse data).temperature ∧
      (parse (data.take 34 ++ [a, b])).rainfall1h = (parse data).rainfall1h ∧
      (parse (data.take 34 ++ [a, b])).rainfall24h
        = (parse data).rainfall24h ∧
      (parse (data.take 34 ++ [a, b])).humidity = (parse data).humidity ∧
      (parse (data.take 34 ++ [a, b])).pressure = (parse data).pressure ∧
      (parse (data.take 34 ++ [a, b])).tempF = (parse data).tempF ∧
      (parse (data.take 34 ++ [a, b])).tempC = (parse data).tempC ∧
      (parse (data.take 34 ++ [a, b])).windSpeedMPH
        = (parse data).windSpeedMPH ∧
      (parse (data.take 34 ++ [a, b])).windSpeedMS
        = (parse data).windSpeedMS ∧
      (parse (data.take 34 ++ [a, b])).windGustMPH
        = (parse data).windGustMPH ∧
      (parse (data.take 34 ++ [a, b])).windGustMS
        = (parse data).windGustMS ∧
      (parse (data.take 34 ++ [a, b])).rainfallInch1h
        = (parse data).rainfallInch1h ∧
      (parse (data.take 34 ++ [a, b])).rainfallMM1h
        = (parse data).rainfallMM1h ∧
      (parse (data.take 34 ++ [a, b])).rainfallInch24h
        = (parse data).rainfallInch24h ∧
      (parse (data.take 34 ++ [a, b])).rainfallMM24h
        = (parse data).rainfallMM24h ∧
      (parse (data.take 34 ++ [a, b])).humidityPercent
        = (parse data).humidityPercent ∧
      (parse (data.take 34 ++ [a, b])).pressureMbar
        = (parse data).pressureMbar ∧
      (parse (data.take 34 ++ [a, b])).pressureInHg
        = (parse data).pressureInHg := by
  have hno : ¬ data.length < minLength := by
    simp only [minLength, not_lt]; omega
  refine ⟨by rw [parse, if_neg hno], fun a b => ?_⟩
  have hno' : ¬ (data.take 34 ++ [a, b]).length < minLength := by
    rw [replaceChecksum_length data a b h]
    simp [minLength]
  simp only [parse, if_neg hno, if_neg hno']
  rw [extractInt_replaceChecksum data a b h 1 3 (by omega),
    extractInt_replaceChecksum data a b h 5 3 (by omega),
    extractInt_replaceChecksum data a b h 9 3 (by omega),
    extractInt_replaceChecksum data a b h 13 3 (by omega),
    extractInt_replaceChecksum data a b h 17 3 (by omega),
    extractInt_replaceChecksum data a b h 21 3 (by omega),
    extractInt_replaceChecksum data a b h 25 2 (by omega),
    extractInt_replaceChecksum data a b h 28 5 (by omega),
    tagsOk_replaceChecksum data a b h,
    charAtD_replaceChecksum_34 data a b h,
    charAtD_replaceChecksum_35 data a b h]
  exact ⟨rfl, rfl, rfl, rfl, rfl, rfl, rfl, rfl, rfl, rfl, rfl, rfl, rfl,
    rfl, rfl, rfl, rfl, rfl, rfl, rfl, rfl, rfl, rfl, rfl⟩

/-- Closed witness for **C7**: the healthy example sentence with its token
replaced by `XY`. -/
theorem parse_checksum_captured_witness :
    (parse exNormalLine).checksum
      = [charAtD exNormalLine 34, charAtD exNormalLine 35] ∧
    (parse (exNormalLine.take 34 ++ ['X', 'Y'])).checksum = ['X', 'Y'] ∧
    (parse (exNormalLine.take 34 ++ ['X', 'Y'])).isValid
      = (parse exNormalLine).isValid := by
  have h := parse_checksum_captured exNormalLine (by decide) (by decide)
  exact ⟨h.1, (h.2 'X' 'Y').1, (h.2 'X' 'Y').2.1⟩

/-- **C10.** One pass of `loop()` parses the trimmed line at most once and
only when it is non-empty: a whitespace-only serial line produces no parse
and no report, a non-empty trimmed line produces exactly one `[RAW]` echo,
one `parse` call on the trimmed line and one report of its result, an idle
pass does nothing, and iterations compose by plain concatenation — no
record is carried from one iteration to the next. -/
theorem loop_parse_routing (data : Line) :
    ((∀ c ∈ data, isSerialSpace c = true) → loopIter (some data) = []) ∧
    (trimLine data ≠ [] →
      loopIter (some data) =
        [LoopEvent.rawEcho (trimLine data),
         LoopEvent.parsed (trimLine data),
         LoopEvent.printed (parse (trimLine data))]) ∧
    (loopIter (some data)).countP LoopEvent.isParseCall ≤ 1 ∧
    (loopIter (some data)).countP LoopEvent.isPrintCall ≤ 1 ∧
    loopIter none = [] ∧
    (∀ xs ys : List (Option Line),
      runLoop (xs ++ ys) = runLoop xs ++ runLoop ys) := by
  refine ⟨?_, ?_, ?_, ?_, rfl, ?_⟩
  · intro hall
    have h1 : data.dropWhile isSerialSpace = [] :=
      List.dropWhile_eq_nil_iff.mpr (fun x hx => hall x hx)
    have hnil : trimLine data = [] := by
      simp [trimLine, h1]
    simp [loopIter, hnil]
  · intro hne
    have hpos : 0 < (trimLine data).length := List.length_pos.mpr hne
    simp only [loopIter]
    rw [if_pos hpos]
  · by_cases hpos : 0 < (trimLine data).length <;>
      simp [loopIter, hpos, LoopEvent.isParseCall]
  · by_cases hpos : 0 < (trimLine data).length <;>
      simp [loopIter, hpos, LoopEvent.isPrintCall]
  · intro xs ys
    simp [runLoop]

/-- Closed witness for **C10**: a whitespace-only line produces nothing; a
newline-prefixed healthy sentence is trimmed and handled exactly once. -/
theorem loop_parse_routing_witness :
    loopIter (some [' ', '\t', '\r']) = [] ∧
    loopIter (some ('\n' :: exNormalLine)) =
      [LoopEvent.rawEcho (trimLine ('\n' :: exNormalLine)),
       LoopEvent.parsed (trimLine ('\n' :: exNormalLine)),
       LoopEvent.printed (parse (trimLine ('\n' :: exNormalLine)))] :=
  ⟨(loop_parse_routing [' ', '\t', '\r']).1 (by decide),
   (loop_parse_routing ('\n' :: exNormalLine)).2.1 (by decide)⟩
